import Mathlib

/-!
# Verification of the NØMAD network-performance core

Shallow embedding of `src/nomad/collectors/network_perf.py` and
`src/nomad/diag/network.py`.

Modelling conventions:

* Python `float` is modelled as `ℚ`, Python `int` as `ℤ`.  All numeric
  operations of the embedded code are comparisons, sums, divisions and
  averages, which are exact on `ℚ`.
* Effectful primitives (`run_command`, `time.time`, `datetime.now`,
  `get_tcp_retrans`, regex parsing of command output) are supplied by
  explicit environment records: an `Option` value is `none` exactly when
  the corresponding Python call raised (and was caught) or the regex did
  not match, and carries the parsed payload otherwise.
* Python `int(x)` on a float truncates toward zero: `pyInt`.
* A phase of `measure_throughput_full` whose measured elapsed time is `0`
  fails in Python with `ZeroDivisionError` inside the per-phase `try:`
  block, so the model records such a phase as absent.
* A function that can raise past its own body is modelled with
  `Except Unit`; a function whose failures are all caught internally is
  total.
-/

/-- Python `int()` applied to a float: truncation toward zero. -/
def pyInt (q : ℚ) : ℤ := if q < 0 then Int.ceil q else Int.floor q

/-- `PingStats` dataclass: ping latency statistics, all fields default 0. -/
structure PingStats where
  min_ms : ℚ := 0
  avg_ms : ℚ := 0
  max_ms : ℚ := 0
  mdev_ms : ℚ := 0
  loss_pct : ℚ := 0
  deriving DecidableEq, Repr

/-- `ThroughputStats` dataclass: throughput measurement statistics. -/
structure ThroughputStats where
  bytes_transferred : ℤ := 0
  rate_mbps : ℚ := 0
  duration_sec : ℚ := 0
  tcp_retrans : ℤ := 0
  deriving DecidableEq, Repr

/-- `NetworkPerfStats` dataclass: one record per path per collection run.
`timestamp` is the ISO string (or `none`), matching `to_dict`. -/
structure NetworkPerfStats where
  source_host : String
  dest_host : String
  path_type : String
  timestamp : Option String := none
  ping : Option PingStats := none
  throughput_cold : Option ThroughputStats := none
  throughput_hot : Option ThroughputStats := none
  throughput_write : Option ThroughputStats := none
  status : String := "unknown"
  deriving DecidableEq, Repr

/-- `NetworkPerfStats.is_healthy`: the health predicate of the record
(`network_perf.py` lines 97-111).  A Python dataclass instance is always
truthy, so `self.throughput_hot and ...` tests only for `None`. -/
def is_healthy (s : NetworkPerfStats) : Bool :=
  match s.ping with
  | none => false
  | some p =>
    if p.loss_pct > 1 then false
    else if p.avg_ms > 50 then false
    else if p.mdev_ms > 20 then false
    else match s.throughput_hot with
      | some h => if h.rate_mbps < 100 then false else true
      | none => true

/-- Status derivation of `_collect_path` (lines 527-533): `healthy` if
`is_healthy`, else `degraded` when ping data exists with `loss_pct < 10`,
else `error`. -/
def deriveStatus (s : NetworkPerfStats) : String :=
  if is_healthy s then "healthy"
  else match s.ping with
    | some p => if p.loss_pct < 10 then "degraded" else "error"
    | none => "error"

/-- Parse results of the `ping` output regexes: `loss` is the packet-loss
percentage when its regex matched, `rtt` the `min/avg/max/mdev` quad. -/
structure PingParse where
  loss : Option ℚ := none
  rtt : Option (ℚ × ℚ × ℚ × ℚ) := none
  deriving DecidableEq, Repr

/-- `measure_ping` (lines 127-153).  The environment is `none` exactly
when `run_command` raised `CollectionError` (timeout or failure); that
branch is caught and returns the sentinel with `loss_pct = 100`. -/
def measure_ping (env : Option PingParse) : PingStats :=
  match env with
  | none => { loss_pct := 100 }
  | some pr =>
    let s : PingStats := {}
    let s := match pr.loss with
      | some l => { s with loss_pct := l }
      | none => s
    match pr.rtt with
    | some (a, b, c, d) => { s with min_ms := a, avg_ms := b, max_ms := c, mdev_ms := d }
    | none => s

/-- Fields of iperf3's JSON `end.sum_sent` object that the code reads;
each is `none` when the key is missing (`sent.get(..., default)`). -/
structure IperfSumSent where
  bytes : Option ℤ := none
  bits_per_second : Option ℚ := none
  seconds : Option ℚ := none
  deriving DecidableEq, Repr

/-- Environment of `measure_throughput_iperf`: `outcome = none` when
`which iperf3`, the client run, or `json.loads` raised (the function then
returns `None`); `some none` when the JSON lacks `end`/`sum_sent`;
`some (some s)` otherwise.  The two retransmit-counter reads are the
values returned by `get_tcp_retrans`. -/
structure IperfEnv where
  outcome : Option (Option IperfSumSent) := none
  retrans_before : ℤ := 0
  retrans_after : ℤ := 0
  deriving DecidableEq, Repr

/-- `measure_throughput_iperf` (lines 168-198). -/
def measure_throughput_iperf (duration : ℚ) (env : IperfEnv) : Option ThroughputStats :=
  match env.outcome with
  | none => none
  | some js =>
    let retr := max 0 (env.retrans_after - env.retrans_before)
    match js with
    | none => some { tcp_retrans := retr }
    | some sent =>
      some { bytes_transferred := sent.bytes.getD 0,
             rate_mbps := sent.bits_per_second.getD 0 / 1000000,
             duration_sec := sent.seconds.getD duration,
             tcp_retrans := retr }

/-- Environment of `measure_throughput_ssh`: `pv_ok` is the `which pv`
probe, `xfer_ok` whether the dd-pv-ssh pipeline command returned (a raise
makes the function return `None`), `parsed` the result of the byte-count
regex on the pv output — the matched value together with the unit
multiplier `multipliers.get(unit, 1)`. -/
structure SshEnv where
  pv_ok : Bool := false
  xfer_ok : Bool := false
  parsed : Option (ℚ × ℤ) := none
  retrans_before : ℤ := 0
  retrans_after : ℤ := 0
  deriving DecidableEq, Repr

/-- `measure_throughput_ssh` (lines 201-245).  Note the code never
assigns `duration_sec`, which keeps its dataclass default `0.0`; the rate
is an estimate assuming a ten-second transfer. -/
def measure_throughput_ssh (size_mb : ℤ) (env : SshEnv) : Option ThroughputStats :=
  if env.pv_ok = false then none
  else if env.xfer_ok = false then none
  else
    let retr := max 0 (env.retrans_after - env.retrans_before)
    let bytes : ℤ :=
      match env.parsed with
      | some (v, m) => pyInt (v * (m : ℚ))
      | none => size_mb * 1024 * 1024
    some { bytes_transferred := bytes,
           rate_mbps := ((bytes * 8 : ℤ) : ℚ) / 1000000 / 10,
           duration_sec := 0,
           tcp_retrans := retr }

/-- Observable steps of `measure_throughput_full`, in program order:
retransmit-counter reads, cache flushes, cache pinning, the transfer
attempts of the three phases, and the `time.sleep(5)` pauses. -/
inductive Ev where
  | tcpRead
  | flush
  | lock
  | xferCold
  | xferHot
  | xferWrite
  | sleep
  deriving DecidableEq, Repr

/-- Environment of `measure_throughput_full`: `pv_ok` is the `which pv`
probe; `gen_ok` is false when `generate_random_files` raised (the only
statement of the body outside a catching `try`, so the exception
propagates); `cold`, `hot i`, `write` give the elapsed wall-clock time of
each transfer attempt, `none` when the command raised. -/
structure FullEnv where
  pv_ok : Bool := false
  gen_ok : Bool := true
  tcp_start : ℤ := 0
  tcp_end : ℤ := 0
  cold : Option ℚ := none
  hot : Fin 3 → Option ℚ := fun _ => none
  write : Option ℚ := none

/-- Result dict of `measure_throughput_full` (lines 320-327). -/
structure FullResults where
  cold_cache : Option ThroughputStats
  hot_cache_runs : List ThroughputStats
  hot_cache_avg : Option ThroughputStats
  true_write : Option ThroughputStats
  tcp_retrans_total : ℤ
  error : Option String
  deriving DecidableEq, Repr

/-- One transfer phase: elapsed time `d` yields
`rate_mbps = total_bytes * 8 / d / 1e6`.  `d = 0` raises
`ZeroDivisionError` inside the phase's `try:`, so the phase is absent. -/
def phaseResult (total : ℤ) : Option ℚ → Option ThroughputStats
  | none => none
  | some d =>
    if d = 0 then none
    else some { bytes_transferred := total,
                rate_mbps := ((total * 8 : ℤ) : ℚ) / d / 1000000,
                duration_sec := d,
                tcp_retrans := 0 }

/-- The hot-cache loop `for run in range(3)`: each iteration attempts one
transfer and appends its stats on success. -/
def hotRuns (total : ℤ) (env : FullEnv) : List ThroughputStats :=
  (List.finRange 3).filterMap (fun i => phaseResult total (env.hot i))

/-- Events of the hot-cache loop: one transfer per iteration, and
`time.sleep(5)` after every iteration but the last (`if run < 2`). -/
def hotTrace : List Ev :=
  (List.finRange 3).foldr (fun i acc => Ev.xferHot :: (if i.val < 2 then [Ev.sleep] else []) ++ acc) []

/-- Hot-cache averaging (lines 384-392): arithmetic mean of rates, bytes
and durations over the successful runs, bytes truncated by `int()`. -/
def averageRuns (runs : List ThroughputStats) : Option ThroughputStats :=
  if runs = [] then none
  else some { bytes_transferred := pyInt ((((runs.map (·.bytes_transferred)).sum : ℤ) : ℚ) / runs.length),
              rate_mbps := (runs.map (·.rate_mbps)).sum / runs.length,
              duration_sec := (runs.map (·.duration_sec)).sum / runs.length,
              tcp_retrans := 0 }

/-- `measure_throughput_full` (lines 298-423), returning the result dict
together with the trace of observable steps.  When `pv` is missing the
error sentinel is returned before any phase runs; when test-file
generation raises the exception propagates (`Except.error`). -/
def measure_throughput_full (num_files file_size_mb : ℤ) (env : FullEnv) :
    Except Unit (FullResults × List Ev) :=
  if env.pv_ok = false then
    .ok ({ cold_cache := none, hot_cache_runs := [], hot_cache_avg := none,
           true_write := none, tcp_retrans_total := 0, error := some "pv not installed" }, [])
  else if env.gen_ok = false then .error ()
  else
    let total := num_files * file_size_mb * 1024 * 1024
    let runs := hotRuns total env
    .ok ({ cold_cache := phaseResult total env.cold,
           hot_cache_runs := runs,
           hot_cache_avg := averageRuns runs,
           true_write := phaseResult total env.write,
           tcp_retrans_total := max 0 (env.tcp_end - env.tcp_start),
           error := none },
         [Ev.tcpRead, Ev.flush, Ev.flush, Ev.xferCold, Ev.lock] ++ hotTrace ++
           [Ev.flush, Ev.flush, Ev.lock, Ev.xferWrite, Ev.tcpRead])

/-- Collector configuration scalars (`NetworkPerfCollector.__init__`). -/
structure CollectorCfg where
  ping_count : ℤ := 10
  iperf_duration : ℚ := 10
  full_test : Bool := false
  num_files : ℤ := 3
  file_size_mb : ℤ := 10
  deriving Repr

/-- Per-path environment for `_collect_path`: the ping parse, the three
possible throughput measurements' environments, the `datetime.now()`
read at the start of `_collect_path` and the one taken by `collect` when
building an error record. -/
structure PathEnv where
  ping : Option PingParse := none
  full : FullEnv := {}
  iperf : IperfEnv := {}
  ssh : SshEnv := {}
  now : String := ""
  errNow : String := ""

/-- `_collect_path` (lines 493-535).  In full mode a raise from
`measure_throughput_full` propagates; the quick mode runs iperf3 and, if
it returned `None`, the ssh fallback with its default `size_mb = 50`. -/
def collectPath (cfg : CollectorCfg) (source dest path_type : String)
    (user : Option String) (env : PathEnv) : Except Unit NetworkPerfStats :=
  let base : NetworkPerfStats :=
    { source_host := source, dest_host := dest, path_type := path_type,
      timestamp := some env.now, ping := some (measure_ping env.ping) }
  if cfg.full_test then
    match measure_throughput_full cfg.num_files cfg.file_size_mb env.full with
    | .error e => .error e
    | .ok (fr, _) =>
      let s := { base with throughput_cold := fr.cold_cache,
                           throughput_hot := fr.hot_cache_avg,
                           throughput_write := fr.true_write }
      let s :=
        if fr.tcp_retrans_total ≠ 0 then
          match s.throughput_hot with
          | some h => { s with throughput_hot := some { h with tcp_retrans := fr.tcp_retrans_total } }
          | none => s
        else s
      .ok { s with status := deriveStatus s }
  else
    let hot := (measure_throughput_iperf cfg.iperf_duration env.iperf).orElse
      (fun _ => measure_throughput_ssh 50 env.ssh)
    let s := { base with throughput_hot := hot }
    .ok { s with status := deriveStatus s }

/-- One entry of the `network_tests` configuration list; `source`,
`path_type` and `user` may be absent (`test_config.get`). -/
structure TestConfig where
  source : Option String := none
  dest : Option String := none
  path_type : Option String := none
  user : Option String := none

/-- A record appended by `collect`: either the full `to_dict` of the
collected stats, or — when `_collect_path` raised — the minimal error
dict carrying only identity, `status = error` and a timestamp. -/
inductive RecordOut where
  | ok (s : NetworkPerfStats)
  | err (source_host dest_host path_type timestamp : String)
  deriving DecidableEq, Repr

/-- Status field of an emitted record. -/
def recordStatus : RecordOut → String
  | .ok s => s.status
  | .err _ _ _ _ => "error"

/-- The record `collect` emits for one configured entry (the body of the
`try`/`except` in lines 477-489), assuming the entry was not skipped. -/
def recordFor (cfg : CollectorCfg) (hostname : String) (r : TestConfig × PathEnv) : RecordOut :=
  let source := r.1.source.getD hostname
  let dest := r.1.dest.getD ""
  let path_type := r.1.path_type.getD "unknown"
  match collectPath cfg source dest path_type r.1.user r.2 with
  | .ok s => .ok s
  | .error _ => .err source dest path_type r.2.errNow

/-- One iteration of the `collect` loop: entries with a missing or empty
`dest` are skipped (`if not dest: continue`). -/
def collectStep (cfg : CollectorCfg) (hostname : String) (r : TestConfig × PathEnv) :
    Option RecordOut :=
  match r.1.dest with
  | none => none
  | some d => if d = "" then none else some (recordFor cfg hostname r)

/-- `NetworkPerfCollector.collect` (lines 464-491), over the configured
entries paired with their per-path environments. -/
def collect (cfg : CollectorCfg) (hostname : String)
    (runs : List (TestConfig × PathEnv)) : List RecordOut :=
  runs.filterMap (collectStep cfg hostname)

/-- One row of the `network_perf` table as written by `store`
(lines 567-593).  Nullable columns are `Option`. -/
structure DbRow where
  row_timestamp : Option String
  source_host : String
  dest_host : String
  path_type : String
  status : String
  ping_min_ms : Option ℚ
  ping_avg_ms : Option ℚ
  ping_max_ms : Option ℚ
  ping_mdev_ms : Option ℚ
  ping_loss_pct : Option ℚ
  throughput_mbps : Option ℚ
  bytes_transferred : Option ℤ
  tcp_retrans : Option ℤ
  deriving DecidableEq, Repr

/-- The row `store` inserts for one record.  The throughput columns come
from `record.get('throughput_hot') or record.get('throughput_cold') or
` the empty dict; `to_dict` sub-dicts are non-empty, so `or` selects the
first non-`None` one.  Both record shapes carry a `timestamp` key, so the
loop-level default timestamp `defaultTs` is never selected. -/
def storeRow (defaultTs : String) : RecordOut → DbRow
  | .ok s =>
    let tp := s.throughput_hot.orElse (fun _ => s.throughput_cold)
    { row_timestamp := s.timestamp,
      source_host := s.source_host,
      dest_host := s.dest_host,
      path_type := s.path_type,
      status := s.status,
      ping_min_ms := s.ping.map (·.min_ms),
      ping_avg_ms := s.ping.map (·.avg_ms),
      ping_max_ms := s.ping.map (·.max_ms),
      ping_mdev_ms := s.ping.map (·.mdev_ms),
      ping_loss_pct := s.ping.map (·.loss_pct),
      throughput_mbps := tp.map (·.rate_mbps),
      bytes_transferred := tp.map (·.bytes_transferred),
      tcp_retrans := tp.map (·.tcp_retrans) }
  | .err src dst pt ts =>
    { row_timestamp := some ts,
      source_host := src,
      dest_host := dst,
      path_type := pt,
      status := "error",
      ping_min_ms := none,
      ping_avg_ms := none,
      ping_max_ms := none,
      ping_mdev_ms := none,
      ping_loss_pct := none,
      throughput_mbps := none,
      bytes_transferred := none,
      tcp_retrans := none }

/-!
## Diagnostic engine (`src/nomad/diag/network.py`)
-/

/-- Python's `pat in s` substring test on strings. -/
def strIn (pat s : String) : Bool :=
  (List.range (s.length + 1)).any (fun i => pat.toList.isPrefixOf (s.toList.drop i))

/-- The columns of the latest `network_perf` row that
`analyze_potential_causes` reads from the current state, each read with
`state.get(key, 0)` (`status` with default `""`). -/
structure NetState where
  status : String := ""
  ping_loss_pct : ℚ := 0
  ping_avg_ms : ℚ := 0
  ping_mdev_ms : ℚ := 0
  tcp_retrans : ℤ := 0
  throughput_mbps : ℚ := 0
  deriving DecidableEq, Repr

/-- The `trends` map: `trends.get('throughput', {}).get('trend')` and
`trends.get('latency', {}).get('trend')`; `none` when the key chain is
absent. -/
structure Trends where
  throughput_trend : Option String := none
  latency_trend : Option String := none
  deriving DecidableEq, Repr

/-- A parsed history-record timestamp: `datetime.weekday()`
(0 = Monday .. 6 = Sunday) and `datetime.hour`. -/
structure Stamp where
  weekday : ℕ
  hour : ℕ
  deriving DecidableEq, Repr

/-- One history row as read by `analyze_time_patterns`: the parsed
timestamp (`none` when `datetime.fromisoformat` raised `ValueError`, in
which case the row is skipped) and the `throughput_mbps` column, with a
missing or `NULL` value reading as the falsy `0`. -/
structure HistRec where
  timestamp : Option Stamp := none
  throughput_mbps : ℚ := 0
  deriving DecidableEq, Repr

/-- The dict returned by `analyze_time_patterns` for non-empty input. -/
structure TimePatterns where
  weekday_avg : ℚ
  weekend_avg : ℚ
  business_hours_avg : ℚ
  off_hours_avg : ℚ
  weekday_count : ℕ
  weekend_count : ℕ
  deriving DecidableEq, Repr

/-- `sum(samples) / len(samples) if samples else 0`. -/
def pyAvg (l : List ℚ) : ℚ := if l = [] then 0 else l.sum / l.length

/-- The bucket-filling loop of `analyze_time_patterns` (lines 190-214):
each record with a truthy throughput and a parseable timestamp goes into
weekday or weekend, and into business hours (9-17 on a weekday) or
off-hours.  Returns `(weekday, weekend, business, off)` sample lists. -/
def timeBuckets : List HistRec → List ℚ × List ℚ × List ℚ × List ℚ
  | [] => ([], [], [], [])
  | r :: rest =>
    match (if r.throughput_mbps = 0 then none else r.timestamp) with
    | none => timeBuckets rest
    | some t =>
      let (wd, we, biz, off) := timeBuckets rest
      (if t.weekday < 5 then r.throughput_mbps :: wd else wd,
       if t.weekday < 5 then we else r.throughput_mbps :: we,
       if 9 ≤ t.hour ∧ t.hour < 17 ∧ t.weekday < 5 then r.throughput_mbps :: biz else biz,
       if 9 ≤ t.hour ∧ t.hour < 17 ∧ t.weekday < 5 then off else r.throughput_mbps :: off)

/-- `analyze_time_patterns` (lines 180-223): `none` models the empty dict
returned for empty history (which is falsy at the use site). -/
def analyze_time_patterns (history : List HistRec) : Option TimePatterns :=
  if history = [] then none
  else
    let (wd, we, biz, off) := timeBuckets history
    some { weekday_avg := pyAvg wd, weekend_avg := pyAvg we,
           business_hours_avg := pyAvg biz, off_hours_avg := pyAvg off,
           weekday_count := wd.length, weekend_count := we.length }

/-- A `(cause, confidence)` entry of the causes list.  The human-readable
`detail` string (an f-string over the same numbers) carries no further
information and is elided from the model. -/
structure Cause where
  cause : String
  confidence : String
  deriving DecidableEq, Repr

/-- Packet-loss tier (lines 241-253): high above 5%, medium above 1%. -/
def lossCauses (st : NetState) : List Cause :=
  if st.ping_loss_pct > 5 then [⟨"High Packet Loss", "high"⟩]
  else if st.ping_loss_pct > 1 then [⟨"Elevated Packet Loss", "medium"⟩]
  else []

/-- Latency tier (lines 259-270): high above 100 ms, medium above 50 ms. -/
def latencyCauses (st : NetState) : List Cause :=
  if st.ping_avg_ms > 100 then [⟨"High Latency", "high"⟩]
  else if st.ping_avg_ms > 50 then [⟨"Elevated Latency", "medium"⟩]
  else []

/-- Jitter tier (lines 272-277): high above 20 ms. -/
def jitterCauses (st : NetState) : List Cause :=
  if st.ping_mdev_ms > 20 then [⟨"High Jitter", "high"⟩] else []

/-- TCP-retransmit tier (lines 280-292): high above 100, medium above 10. -/
def retransCauses (st : NetState) : List Cause :=
  if st.tcp_retrans > 100 then [⟨"Excessive TCP Retransmits", "high"⟩]
  else if st.tcp_retrans > 10 then [⟨"Elevated TCP Retransmits", "medium"⟩]
  else []

/-- Throughput tier (lines 295-301): medium when truthy and below 100. -/
def throughputCauses (st : NetState) : List Cause :=
  if st.throughput_mbps ≠ 0 ∧ st.throughput_mbps < 100 then [⟨"Low Throughput", "medium"⟩]
  else []

/-- Business-hours congestion tier (lines 304-322): with both averages
truthy and the off-hours one positive, `ratio = biz / off` fires high
when `ratio < 0.7` and medium when `0.7 <= ratio < 0.85`. -/
def congestionCauses (patterns : Option TimePatterns) : List Cause :=
  match patterns with
  | none => []
  | some tp =>
    if tp.business_hours_avg ≠ 0 ∧ tp.off_hours_avg ≠ 0 ∧ tp.off_hours_avg > 0 then
      if tp.business_hours_avg / tp.off_hours_avg < 7 / 10 then
        [⟨"Business Hours Congestion", "high"⟩]
      else if tp.business_hours_avg / tp.off_hours_avg < 85 / 100 then
        [⟨"Mild Business Hours Impact", "medium"⟩]
      else []
    else []

/-- Trend tiers (lines 325-337). -/
def trendCauses (trends : Trends) : List Cause :=
  (if trends.throughput_trend = some "decreasing" then
    [⟨"Declining Throughput Trend", "medium"⟩] else []) ++
  (if trends.latency_trend = some "increasing" then
    [⟨"Increasing Latency Trend", "medium"⟩] else [])

/-- The causes accumulated by the threshold checks of
`analyze_potential_causes`, in program order. -/
def allCauses (st : NetState) (trends : Trends) (patterns : Option TimePatterns) :
    List Cause :=
  lossCauses st ++ latencyCauses st ++ jitterCauses st ++ retransCauses st ++
    throughputCauses st ++ congestionCauses patterns ++ trendCauses trends

/-- `analyze_potential_causes` (lines 226-346).  `state = none` models
both an absent and an empty (falsy) current-state dict; `history` is
accepted but unused, as in the source. -/
def analyze_potential_causes (state : Option NetState) (history : List HistRec)
    (trends : Trends) (patterns : Option TimePatterns) : List Cause :=
  match state with
  | none => [⟨"No network data available", "high"⟩]
  | some st =>
    if allCauses st trends patterns = [] then [⟨"No obvious issues detected", "low"⟩]
    else allCauses st trends patterns

/-- The canned recommendations for one cause name, selected by Python
substring matching on the name (lines 353-385). -/
def recsFor (cause_name : String) : List String :=
  if strIn "Packet Loss" cause_name then
    ["Check cable connections and switch ports",
     "Verify switch port error counters: show interface counters errors",
     "Test with different cables or ports"]
  else if strIn "Latency" cause_name then
    ["Check for routing changes: traceroute <dest>",
     "Verify no bandwidth-heavy processes running",
     "Check switch/router CPU utilization"]
  else if strIn "Jitter" cause_name then
    ["Network jitter often indicates congestion",
     "Check for broadcast storms or network loops",
     "Consider QoS policies for critical traffic"]
  else if strIn "Retransmit" cause_name then
    ["TCP retransmits indicate packet loss",
     "Check for duplex mismatch: ethtool <interface>",
     "Verify MTU settings match across path"]
  else if strIn "Congestion" cause_name then
    ["Consider dedicated network path for HPC traffic",
     "Evaluate traffic shaping or QoS policies",
     "Schedule large transfers for off-hours",
     "Document congestion pattern for infrastructure upgrade proposal"]
  else if strIn "Low Throughput" cause_name then
    ["Run iperf3 test to isolate bottleneck: iperf3 -c <dest>",
     "Check NIC link speed: ethtool <interface>",
     "Verify no half-duplex links in path"]
  else []

/-- The recommendation list before deduplication: the `for cause in
causes` loop appending `recsFor` each cause name. -/
def rawRecommendations (causes : List Cause) : List String :=
  (causes.map (fun c => recsFor c.cause)).flatten

/-- `list(dict.fromkeys(recs))`: keep the first occurrence of each
string, preserving order. -/
def dedupFirstGo (seen : List String) : List String → List String
  | [] => []
  | x :: xs => if x ∈ seen then dedupFirstGo seen xs else x :: dedupFirstGo (x :: seen) xs

/-- First-occurrence deduplication, as `dict.fromkeys` performs. -/
def dedupFirst (l : List String) : List String := dedupFirstGo [] l

/-- `generate_recommendations` (lines 349-390).  `state` and
`time_patterns` are accepted but unused, as in the source. -/
def generate_recommendations (causes : List Cause) (state : Option NetState)
    (patterns : Option TimePatterns) : List String :=
  let recs := rawRecommendations causes
  let recs := if recs = [] then ["Network appears healthy - no action required"] else recs
  dedupFirst recs

/-!
## Helper lemmas
-/

/-- Membership in the first-occurrence deduplication worker. -/
theorem mem_dedupFirstGo (l : List String) :
    ∀ (seen : List String) (a : String),
      a ∈ dedupFirstGo seen l ↔ a ∈ l ∧ a ∉ seen := by
  induction l with
  | nil => intro seen a; simp [dedupFirstGo]
  | cons x xs ih =>
    intro seen a
    by_cases h : x ∈ seen
    · rw [dedupFirstGo, if_pos h, ih]
      constructor
      · rintro ⟨hxs, hns⟩; exact ⟨List.mem_cons_of_mem x hxs, hns⟩
      · rintro ⟨hmem, hns⟩
        rcases List.mem_cons.mp hmem with rfl | hxs
        · exact absurd h hns
        · exact ⟨hxs, hns⟩
    · rw [dedupFirstGo, if_neg h]
      constructor
      · intro hmem
        rcases List.mem_cons.mp hmem with rfl | hmem2
        · exact ⟨List.mem_cons_self a xs, h⟩
        · obtain ⟨hxs, hns⟩ := (ih (x :: seen) a).mp hmem2
          refine ⟨List.mem_cons_of_mem x hxs, fun hs => hns (List.mem_cons_of_mem x hs)⟩
      · rintro ⟨hmem, hns⟩
        rcases List.mem_cons.mp hmem with rfl | hxs
        · exact List.mem_cons_self a _
        · by_cases hax : a = x
          · subst hax; exact List.mem_cons_self a _
          · refine List.mem_cons_of_mem x ((ih (x :: seen) a).mpr ⟨hxs, ?_⟩)
            intro hm
            rcases List.mem_cons.mp hm with h1 | h2
            · exact hax h1
            · exact hns h2

/-- The deduplication worker never repeats an element. -/
theorem nodup_dedupFirstGo (l : List String) :
    ∀ seen : List String, (dedupFirstGo seen l).Nodup := by
  induction l with
  | nil => intro seen; simp [dedupFirstGo]
  | cons x xs ih =>
    intro seen
    by_cases h : x ∈ seen
    · rw [dedupFirstGo, if_pos h]; exact ih seen
    · rw [dedupFirstGo, if_neg h]
      refine List.nodup_cons.mpr ⟨?_, ih (x :: seen)⟩
      intro hmem
      exact ((mem_dedupFirstGo xs (x :: seen) x).mp hmem).2 (List.mem_cons_self x seen)

/-- The deduplication worker only drops elements. -/
theorem dedupFirstGo_sublist (l : List String) :
    ∀ seen : List String, (dedupFirstGo seen l).Sublist l := by
  induction l with
  | nil => intro seen; simp [dedupFirstGo]
  | cons x xs ih =>
    intro seen
    by_cases h : x ∈ seen
    · rw [dedupFirstGo, if_pos h]
      exact (ih seen).trans (List.sublist_cons_self x xs)
    · rw [dedupFirstGo, if_neg h]
      exact (ih (x :: seen)).cons₂ x

/-- `dict.fromkeys` deduplication keeps exactly the elements of its input. -/
theorem mem_dedupFirst (l : List String) (a : String) : a ∈ dedupFirst l ↔ a ∈ l := by
  rw [dedupFirst, mem_dedupFirstGo]
  simp

/-- `dict.fromkeys` deduplication yields a duplicate-free list. -/
theorem nodup_dedupFirst (l : List String) : (dedupFirst l).Nodup :=
  nodup_dedupFirstGo l []

/-- `dict.fromkeys` deduplication preserves first-seen order: the output
is a sublist of the input. -/
theorem dedupFirst_sublist (l : List String) : (dedupFirst l).Sublist l :=
  dedupFirstGo_sublist l []

/-- Deduplicating a non-empty list yields a non-empty list. -/
theorem dedupFirst_ne_nil (l : List String) (h : l ≠ []) : dedupFirst l ≠ [] := by
  cases l with
  | nil => exact absurd rfl h
  | cons x xs =>
    rw [dedupFirst, dedupFirstGo, if_neg (List.not_mem_nil x)]
    exact List.cons_ne_nil _ _

/-!
## Claims
-/

/-- C5: whenever the underlying ping command fails (raises
`CollectionError` from timeout or execution failure), `measure_ping` does
not propagate the error and returns a `PingStats` with `loss_pct = 100`
and `min_ms = avg_ms = max_ms = mdev_ms = 0`. -/
theorem ping_failure_returns_sentinel :
    measure_ping none =
      { min_ms := 0, avg_ms := 0, max_ms := 0, mdev_ms := 0, loss_pct := 100 } := rfl

/-- C8: with an absent/empty current state, `analyze_potential_causes`
returns exactly the single high-confidence cause `No network data
available`, regardless of history, trends and time patterns, and the
recommendations generated from that single cause reduce to the fallback
`Network appears healthy - no action required`. -/
theorem no_state_single_cause_and_fallback :
    ∀ (history : List HistRec) (trends : Trends) (patterns : Option TimePatterns),
      analyze_potential_causes none history trends patterns =
        [⟨"No network data available", "high"⟩] ∧
      generate_recommendations (analyze_potential_causes none history trends patterns)
          none patterns = ["Network appears healthy - no action required"] := by
  intro history trends patterns
  exact ⟨rfl, rfl⟩

/-- Witness for C8 at concrete inputs. -/
theorem no_state_single_cause_and_fallback_witness :
    analyze_potential_causes none [] ({} : Trends) none =
      [⟨"No network data available", "high"⟩] ∧
    generate_recommendations (analyze_potential_causes none [] ({} : Trends) none)
        none none = ["Network appears healthy - no action required"] :=
  no_state_single_cause_and_fallback [] {} none

/-- C10: the throughput columns written by `store` come from the
hot-cache result when present, else from the cold-cache result, else are
`NULL`; the true-write phase result is never written (the row is
independent of `throughput_write`). -/
theorem store_selects_hot_then_cold_never_write :
    ∀ (ts : String) (s : NetworkPerfStats),
      (∀ h, s.throughput_hot = some h →
        (storeRow ts (.ok s)).throughput_mbps = some h.rate_mbps ∧
        (storeRow ts (.ok s)).bytes_transferred = some h.bytes_transferred ∧
        (storeRow ts (.ok s)).tcp_retrans = some h.tcp_retrans) ∧
      (s.throughput_hot = none → ∀ c, s.throughput_cold = some c →
        (storeRow ts (.ok s)).throughput_mbps = some c.rate_mbps ∧
        (storeRow ts (.ok s)).bytes_transferred = some c.bytes_transferred ∧
        (storeRow ts (.ok s)).tcp_retrans = some c.tcp_retrans) ∧
      (s.throughput_hot = none → s.throughput_cold = none →
        (storeRow ts (.ok s)).throughput_mbps = none ∧
        (storeRow ts (.ok s)).bytes_transferred = none ∧
        (storeRow ts (.ok s)).tcp_retrans = none) ∧
      (∀ w, storeRow ts (.ok { s with throughput_write := w }) = storeRow ts (.ok s)) := by
  intro ts s
  refine ⟨?_, ?_, ?_, fun w => rfl⟩
  · intro h hh
    simp [storeRow, hh, Option.orElse]
  · intro hh c hc
    simp [storeRow, hh, hc, Option.orElse]
  · intro hh hc
    simp [storeRow, hh, hc, Option.orElse]

/-- A record with both a hot-cache and a cold-cache result. -/
def exRecHot : NetworkPerfStats :=
  { source_host := "a", dest_host := "b", path_type := "nfs",
    throughput_hot := some { rate_mbps := 5 }, throughput_cold := some { rate_mbps := 7 } }

/-- A record with only a cold-cache result. -/
def exRecCold : NetworkPerfStats :=
  { source_host := "a", dest_host := "b", path_type := "nfs",
    throughput_cold := some { rate_mbps := 7 } }

/-- A record with no throughput result. -/
def exRecNone : NetworkPerfStats :=
  { source_host := "a", dest_host := "b", path_type := "nfs" }

/-- Witness for C10: three concrete records exercising the hot,
cold-only and empty selection branches. -/
theorem store_selects_hot_then_cold_never_write_witness :
    (storeRow "t" (.ok exRecHot)).throughput_mbps = some 5 ∧
    (storeRow "t" (.ok exRecCold)).throughput_mbps = some 7 ∧
    (storeRow "t" (.ok exRecNone)).throughput_mbps = none :=
  ⟨((store_selects_hot_then_cold_never_write "t" exRecHot).1 _ rfl).1,
   (((store_selects_hot_then_cold_never_write "t" exRecCold).2.1 rfl) _ rfl).1,
   ((store_selects_hot_then_cold_never_write "t" exRecNone).2.2.1 rfl rfl).1⟩

/-- The health predicate at record level, given the ping data. -/
theorem is_healthy_iff (s : NetworkPerfStats) (p : PingStats) (hp : s.ping = some p) :
    is_healthy s = true ↔
      p.loss_pct ≤ 1 ∧ p.avg_ms ≤ 50 ∧ p.mdev_ms ≤ 20 ∧
        ∀ h, s.throughput_hot = some h → 100 ≤ h.rate_mbps := by
  cases hhot : s.throughput_hot with
  | none =>
    simp only [is_healthy, hp, hhot]
    split_ifs with h1 h2 h3 <;> simp_all
  | some h =>
    simp only [is_healthy, hp, hhot]
    split_ifs with h1 h2 h3 h4 <;> simp_all

/-- The three possible statuses, characterised by the health predicate
and packet loss. -/
theorem deriveStatus_trichotomy (s : NetworkPerfStats) (p : PingStats) (hp : s.ping = some p) :
    (deriveStatus s = "healthy" ↔ is_healthy s = true) ∧
    (deriveStatus s = "degraded" ↔ is_healthy s = false ∧ p.loss_pct < 10) ∧
    (deriveStatus s = "error" ↔ is_healthy s = false ∧ 10 ≤ p.loss_pct) := by
  by_cases hh : is_healthy s
  · simp [deriveStatus, hh]
  · have hh' : is_healthy s = false := by simpa using hh
    by_cases hl : p.loss_pct < 10
    · simp [deriveStatus, hh', hp, hl]
    · simp [deriveStatus, hh', hp, hl, not_lt.mp hl]

/-- Every record assembled by `_collect_path` carries the measured ping
and a status equal to `deriveStatus` of its own metrics. -/
theorem collectPath_shape :
    ∀ (cfg : CollectorCfg) (source dest path_type : String) (user : Option String)
      (env : PathEnv) (s : NetworkPerfStats),
      collectPath cfg source dest path_type user env = .ok s →
      s.ping = some (measure_ping env.ping) ∧ s.status = deriveStatus s := by
  intro cfg source dest path_type user env s h
  unfold collectPath at h
  by_cases hf : cfg.full_test
  · rw [if_pos hf] at h
    cases hfull : measure_throughput_full cfg.num_files cfg.file_size_mb env.full with
    | error e => rw [hfull] at h; cases h
    | ok pr =>
      obtain ⟨fr, tr⟩ := pr
      rw [hfull] at h
      simp only at h
      by_cases hrt : fr.tcp_retrans_total ≠ 0
      · rw [if_pos hrt] at h
        cases hhot : fr.hot_cache_avg with
        | none => rw [hhot] at h; cases h; exact ⟨rfl, rfl⟩
        | some ha => rw [hhot] at h; cases h; exact ⟨rfl, rfl⟩
      · rw [if_neg hrt] at h
        cases h; exact ⟨rfl, rfl⟩
  · rw [if_neg hf] at h
    cases h; exact ⟨rfl, rfl⟩

/-- C1: for every record assembled by the collector, the derived status
is a pure function of its metrics: `healthy` iff ping is present with
`loss_pct <= 1`, `avg_ms <= 50`, `mdev_ms <= 20` and, when the hot-cache
throughput is present, `rate_mbps >= 100`; otherwise `degraded` iff
`loss_pct < 10`; otherwise `error`. -/
theorem collector_status_pure_characterization :
    ∀ (cfg : CollectorCfg) (source dest path_type : String) (user : Option String)
      (env : PathEnv) (s : NetworkPerfStats),
      collectPath cfg source dest path_type user env = .ok s →
      ∃ p, s.ping = some p ∧
        (s.status = "healthy" ↔
          p.loss_pct ≤ 1 ∧ p.avg_ms ≤ 50 ∧ p.mdev_ms ≤ 20 ∧
            ∀ h, s.throughput_hot = some h → 100 ≤ h.rate_mbps) ∧
        (s.status = "degraded" ↔
          ¬(p.loss_pct ≤ 1 ∧ p.avg_ms ≤ 50 ∧ p.mdev_ms ≤ 20 ∧
            ∀ h, s.throughput_hot = some h → 100 ≤ h.rate_mbps) ∧ p.loss_pct < 10) ∧
        (s.status = "error" ↔
          ¬(p.loss_pct ≤ 1 ∧ p.avg_ms ≤ 50 ∧ p.mdev_ms ≤ 20 ∧
            ∀ h, s.throughput_hot = some h → 100 ≤ h.rate_mbps) ∧ 10 ≤ p.loss_pct) := by
  intro cfg source dest path_type user env s h
  obtain ⟨hp, hst⟩ := collectPath_shape cfg source dest path_type user env s h
  have hchar := is_healthy_iff s _ hp
  have htri := deriveStatus_trichotomy s _ hp
  have hfalse : is_healthy s = false ↔
      ¬(let p := measure_ping env.ping
        p.loss_pct ≤ 1 ∧ p.avg_ms ≤ 50 ∧ p.mdev_ms ≤ 20 ∧
          ∀ h, s.throughput_hot = some h → 100 ≤ h.rate_mbps) := by
    rw [← hchar]
    cases is_healthy s <;> simp
  refine ⟨measure_ping env.ping, hp, ?_, ?_, ?_⟩
  · rw [hst]; exact htri.1.trans hchar
  · rw [hst]; exact htri.2.1.trans (and_congr_left' hfalse)
  · rw [hst]; exact htri.2.2.trans (and_congr_left' hfalse)

/-- The record collected with a default configuration and an
all-failures environment. -/
def exC1Stats : NetworkPerfStats :=
  { source_host := "a", dest_host := "b", path_type := "direct",
    timestamp := some "", ping := some { loss_pct := 100 }, status := "error" }

/-- Witness for C1: the default quick-mode collection with every
measurement failing yields `exC1Stats`, whose status satisfies the
characterization. -/
theorem collector_status_pure_characterization_witness :
    ∃ p, exC1Stats.ping = some p ∧
      (exC1Stats.status = "healthy" ↔
        p.loss_pct ≤ 1 ∧ p.avg_ms ≤ 50 ∧ p.mdev_ms ≤ 20 ∧
          ∀ h, exC1Stats.throughput_hot = some h → 100 ≤ h.rate_mbps) ∧
      (exC1Stats.status = "degraded" ↔
        ¬(p.loss_pct ≤ 1 ∧ p.avg_ms ≤ 50 ∧ p.mdev_ms ≤ 20 ∧
          ∀ h, exC1Stats.throughput_hot = some h → 100 ≤ h.rate_mbps) ∧ p.loss_pct < 10) ∧
      (exC1Stats.status = "error" ↔
        ¬(p.loss_pct ≤ 1 ∧ p.avg_ms ≤ 50 ∧ p.mdev_ms ≤ 20 ∧
          ∀ h, exC1Stats.throughput_hot = some h → 100 ≤ h.rate_mbps) ∧ 10 ≤ p.loss_pct) :=
  collector_status_pure_characterization {} "a" "b" "direct" none {} exC1Stats rfl

/-- Under valid destinations, the `collect` loop is a per-entry map:
each configured path yields exactly one record, independent of the other
entries. -/
theorem collect_eq_map (cfg : CollectorCfg) (hostname : String) :
    ∀ runs : List (TestConfig × PathEnv),
      (∀ r ∈ runs, ∃ d, r.1.dest = some d ∧ d ≠ "") →
      collect cfg hostname runs = runs.map (recordFor cfg hostname) := by
  intro runs
  induction runs with
  | nil => intro _; rfl
  | cons r rs ih =>
    intro hvalid
    obtain ⟨d, hd, hne⟩ := hvalid r (List.mem_cons_self r rs)
    have hstep : collectStep cfg hostname r = some (recordFor cfg hostname r) := by
      unfold collectStep
      rw [hd]
      simp [hne]
    simp only [collect, List.filterMap_cons, hstep, List.map_cons]
    exact congrArg _ (ih (fun x hx => hvalid x (List.mem_cons_of_mem r hx)))

/-- C9: for every configured path entry, `collect` produces exactly one
record; a raise inside `_collect_path` is converted into a record with
status `error` carrying only source, destination, path type and
timestamp; and every emitted record is a function of its own entry
alone, so one path's failure leaves the other records unchanged. -/
theorem collect_one_record_per_path :
    ∀ (cfg : CollectorCfg) (hostname : String) (runs : List (TestConfig × PathEnv)),
      (∀ r ∈ runs, ∃ d, r.1.dest = some d ∧ d ≠ "") →
      collect cfg hostname runs = runs.map (recordFor cfg hostname) ∧
      (collect cfg hostname runs).length = runs.length ∧
      (∀ (r : TestConfig × PathEnv) (d : String), r ∈ runs → r.1.dest = some d →
        collectPath cfg (r.1.source.getD hostname) d (r.1.path_type.getD "unknown")
            r.1.user r.2 = .error () →
        recordFor cfg hostname r =
          .err (r.1.source.getD hostname) d (r.1.path_type.getD "unknown") r.2.errNow ∧
        recordStatus (recordFor cfg hostname r) = "error") := by
  intro cfg hostname runs hvalid
  have hmap := collect_eq_map cfg hostname runs hvalid
  refine ⟨hmap, by rw [hmap, List.length_map], ?_⟩
  intro r d hr hd herr
  have heq : recordFor cfg hostname r =
      .err (r.1.source.getD hostname) d (r.1.path_type.getD "unknown") r.2.errNow := by
    unfold recordFor
    rw [hd]
    simp only [Option.getD_some, herr]
  exact ⟨heq, by rw [heq]; rfl⟩

/-- A one-entry configuration for the C9 witness. -/
def exC9Runs : List (TestConfig × PathEnv) := [({ dest := some "remote" }, {})]

/-- Witness for C9 at a concrete one-path configuration. -/
theorem collect_one_record_per_path_witness :
    collect {} "h" exC9Runs = exC9Runs.map (recordFor {} "h") ∧
    (collect {} "h" exC9Runs).length = exC9Runs.length ∧
    (∀ (r : TestConfig × PathEnv) (d : String), r ∈ exC9Runs → r.1.dest = some d →
      collectPath {} (r.1.source.getD "h") d (r.1.path_type.getD "unknown")
          r.1.user r.2 = .error () →
      recordFor {} "h" r =
        .err (r.1.source.getD "h") d (r.1.path_type.getD "unknown") r.2.errNow ∧
      recordStatus (recordFor {} "h" r) = "error") :=
  collect_one_record_per_path {} "h" exC9Runs (by
    intro r hr
    rcases List.mem_singleton.mp hr with rfl
    exact ⟨"remote", rfl, by decide⟩)

/-- C3 (amended): if `pv` is unavailable, `measure_throughput_full`
skips all three phases (no transfer events, every phase slot absent) and
returns the result with its `error` field set; the collector in full
mode then leaves every throughput slot of the record empty — it does
*not* fall back to a single-shot measurement; the single-shot path
(iperf3 if it yields a result, else the ssh streaming measurement) runs
only when `full_test` is disabled. -/
theorem pv_missing_skips_phases_no_fallback :
    (∀ (nf fs : ℤ) (env : FullEnv), env.pv_ok = false →
      measure_throughput_full nf fs env =
        .ok ({ cold_cache := none, hot_cache_runs := [], hot_cache_avg := none,
               true_write := none, tcp_retrans_total := 0,
               error := some "pv not installed" }, [])) ∧
    (∀ (cfg : CollectorCfg) (source dest path_type : String) (user : Option String)
        (env : PathEnv), cfg.full_test = true → env.full.pv_ok = false →
      ∃ s, collectPath cfg source dest path_type user env = .ok s ∧
        s.throughput_cold = none ∧ s.throughput_hot = none ∧ s.throughput_write = none) ∧
    (∀ (cfg : CollectorCfg) (source dest path_type : String) (user : Option String)
        (env : PathEnv), cfg.full_test = false →
      ∃ s, collectPath cfg source dest path_type user env = .ok s ∧
        s.throughput_hot = (measure_throughput_iperf cfg.iperf_duration env.iperf).orElse
          (fun _ => measure_throughput_ssh 50 env.ssh)) := by
  refine ⟨?_, ?_, ?_⟩
  · intro nf fs env hpv
    simp [measure_throughput_full, hpv]
  · intro cfg source dest path_type user env hf hpv
    simp only [collectPath, hf, if_true, measure_throughput_full, hpv, Bool.false_eq_true,
      not_false_eq_true, if_pos]
    exact ⟨_, rfl, rfl, rfl, rfl⟩
  · intro cfg source dest path_type user env hf
    simp only [collectPath, hf, Bool.false_eq_true, if_false]
    exact ⟨_, rfl, rfl⟩

/-- Witness for C3 at concrete inputs: full mode with `pv` missing, and
quick mode with every tool failing. -/
theorem pv_missing_skips_phases_no_fallback_witness :
    measure_throughput_full 3 10 { pv_ok := false } =
      .ok ({ cold_cache := none, hot_cache_runs := [], hot_cache_avg := none,
             true_write := none, tcp_retrans_total := 0,
             error := some "pv not installed" }, []) ∧
    (∃ s, collectPath { full_test := true } "a" "b" "nfs" none {} = .ok s ∧
      s.throughput_cold = none ∧ s.throughput_hot = none ∧ s.throughput_write = none) ∧
    (∃ s, collectPath {} "a" "b" "nfs" none {} = .ok s ∧
      s.throughput_hot = (measure_throughput_iperf (10 : ℚ) {}).orElse
        (fun _ => measure_throughput_ssh 50 {})) :=
  ⟨pv_missing_skips_phases_no_fallback.1 3 10 { pv_ok := false } rfl,
   pv_missing_skips_phases_no_fallback.2.1 { full_test := true } "a" "b" "nfs" none {} rfl rfl,
   pv_missing_skips_phases_no_fallback.2.2 {} "a" "b" "nfs" none {} rfl⟩

/-- The C3 counterexample configuration: full mode enabled. -/
def cexC3Cfg : CollectorCfg := { full_test := true }

/-- The C3 counterexample environment: `pv` missing but iperf3 present
and succeeding. -/
def cexC3Env : PathEnv := { iperf := { outcome := some none } }

/-- Counterexample to C3 as stated: with `full_test` enabled, `pv`
missing and iperf3 available and succeeding, the collected record still
has `throughput_hot = none` — the claimed fallback to the single-shot
iperf3 measurement does not happen. -/
theorem no_fallback_counterexample :
    collectPath cexC3Cfg "src" "dst" "switch" none cexC3Env =
      .ok { source_host := "src", dest_host := "dst", path_type := "switch",
            timestamp := some "", ping := some { loss_pct := 100 },
            throughput_cold := none, throughput_hot := none, throughput_write := none,
            status := "error" } ∧
    measure_throughput_iperf cexC3Cfg.iperf_duration cexC3Env.iperf =
      some { bytes_transferred := 0, rate_mbps := 0, duration_sec := 0, tcp_retrans := 0 } :=
  ⟨rfl, rfl⟩

/-- C2: when the full benchmark runs (pv present), the hot-cache phase
performs exactly three transfer attempts with a pause between
consecutive attempts, and when all three succeed the averaged hot-cache
result has `rate_mbps = (r1+r2+r3)/3`, `bytes_transferred` the
`int()`-truncated mean of the three byte counts, and `duration_sec` the
mean of the three durations. -/
theorem hot_cache_three_runs_averaged :
    ∀ (nf fs : ℤ) (env : FullEnv) (res : FullResults) (tr : List Ev),
      measure_throughput_full nf fs env = .ok (res, tr) →
      res.error = none →
      tr.filter (fun e => e = Ev.xferHot || e = Ev.sleep) =
        [Ev.xferHot, Ev.sleep, Ev.xferHot, Ev.sleep, Ev.xferHot] ∧
      ∀ t1 t2 t3, res.hot_cache_runs = [t1, t2, t3] →
        res.hot_cache_avg = some
          { bytes_transferred :=
              pyInt (((t1.bytes_transferred + t2.bytes_transferred +
                t3.bytes_transferred : ℤ) : ℚ) / 3),
            rate_mbps := (t1.rate_mbps + t2.rate_mbps + t3.rate_mbps) / 3,
            duration_sec := (t1.duration_sec + t2.duration_sec + t3.duration_sec) / 3,
            tcp_retrans := 0 } := by
  intro nf fs env res tr h herr
  unfold measure_throughput_full at h
  split at h
  · cases h
    cases herr
  · split at h
    · cases h
    · cases h
      constructor
      · decide
      · intro t1 t2 t3 hruns
        dsimp only at hruns
        show averageRuns (hotRuns (nf * fs * 1024 * 1024) env) = _
        rw [hruns]
        unfold averageRuns
        rw [if_neg (List.cons_ne_nil t1 [t2, t3])]
        simp only [Option.some.injEq, ThroughputStats.mk.injEq, List.map_cons, List.map_nil,
          List.sum_cons, List.sum_nil, List.length_cons, List.length_nil]
        refine ⟨congrArg pyInt ?_, ?_, ?_, trivial⟩
        · push_cast
          ring
        · push_cast
          ring
        · push_cast
          ring

/-- A full-benchmark environment whose three hot runs all succeed in one
second each, with zero-size test files. -/
def exC2Env : FullEnv := { pv_ok := true, gen_ok := true, hot := fun _ => some 1 }

/-- The benchmark result of `exC2Env`. -/
def exC2Res : FullResults :=
  { cold_cache := none,
    hot_cache_runs := [⟨0, 0, 1, 0⟩, ⟨0, 0, 1, 0⟩, ⟨0, 0, 1, 0⟩],
    hot_cache_avg := some ⟨0, 0, 1, 0⟩,
    true_write := none, tcp_retrans_total := 0, error := none }

/-- The event trace of `exC2Env`. -/
def exC2Tr : List Ev :=
  [Ev.tcpRead, Ev.flush, Ev.flush, Ev.xferCold, Ev.lock,
   Ev.xferHot, Ev.sleep, Ev.xferHot, Ev.sleep, Ev.xferHot,
   Ev.flush, Ev.flush, Ev.lock, Ev.xferWrite, Ev.tcpRead]

/-- Witness for C2 at a concrete full-benchmark run. -/
theorem hot_cache_three_runs_averaged_witness :
    exC2Tr.filter (fun e => e = Ev.xferHot || e = Ev.sleep) =
      [Ev.xferHot, Ev.sleep, Ev.xferHot, Ev.sleep, Ev.xferHot] ∧
    ∀ t1 t2 t3, exC2Res.hot_cache_runs = [t1, t2, t3] →
      exC2Res.hot_cache_avg = some
        { bytes_transferred :=
            pyInt (((t1.bytes_transferred + t2.bytes_transferred +
              t3.bytes_transferred : ℤ) : ℚ) / 3),
          rate_mbps := (t1.rate_mbps + t2.rate_mbps + t3.rate_mbps) / 3,
          duration_sec := (t1.duration_sec + t2.duration_sec + t3.duration_sec) / 3,
          tcp_retrans := 0 } :=
  hot_cache_three_runs_averaged 0 0 exC2Env exC2Res exC2Tr
    (by
      norm_num [measure_throughput_full, hotRuns, hotTrace, phaseResult, averageRuns, pyInt,
        List.finRange, List.filterMap, List.foldr, List.cons_ne_nil, exC2Env, exC2Res, exC2Tr])
    rfl

/-- Truncation toward zero of a nonnegative rational is nonnegative. -/
theorem pyInt_nonneg (q : ℚ) (h : 0 ≤ q) : 0 ≤ pyInt q := by
  rw [pyInt, if_neg (not_lt.mpr h)]
  exact Int.floor_nonneg.mpr h

/-- A successful benchmark phase with nonnegative measured time has a
nonnegative rate and a positive duration. -/
theorem phaseResult_pos (total : ℤ) (dOpt : Option ℚ) (t : ThroughputStats)
    (htot : 0 ≤ total) (hd : ∀ d, dOpt = some d → 0 ≤ d)
    (h : phaseResult total dOpt = some t) :
    0 ≤ t.rate_mbps ∧ 0 < t.duration_sec := by
  cases dOpt with
  | none => cases h
  | some d =>
    rw [phaseResult] at h
    split at h
    · cases h
    · cases h
      have hd0 : 0 ≤ d := hd d rfl
      have hne : d ≠ 0 := by assumption
      have hpos : 0 < d := lt_of_le_of_ne hd0 (Ne.symm hne)
      refine ⟨?_, hpos⟩
      have : (0 : ℚ) ≤ ((total * 8 : ℤ) : ℚ) := by
        exact_mod_cast mul_nonneg htot (by norm_num)
      exact div_nonneg (div_nonneg this hd0) (by norm_num)

/-- Averaging runs with nonnegative rates and positive durations yields
a nonnegative rate and a positive duration. -/
theorem averageRuns_pos (runs : List ThroughputStats) (t : ThroughputStats)
    (hall : ∀ x ∈ runs, 0 ≤ x.rate_mbps ∧ 0 < x.duration_sec)
    (h : averageRuns runs = some t) :
    0 ≤ t.rate_mbps ∧ 0 < t.duration_sec := by
  rw [averageRuns] at h
  split at h
  · cases h
  · cases h
    have hne : runs ≠ [] := by assumption
    have hlen : (0 : ℚ) < runs.length := by
      have : 0 < runs.length := List.length_pos.mpr hne
      exact_mod_cast this
    constructor
    · refine div_nonneg (List.sum_nonneg ?_) (le_of_lt hlen)
      intro x hx
      rw [List.mem_map] at hx
      obtain ⟨y, hy, rfl⟩ := hx
      exact (hall y hy).1
    · refine div_pos (List.sum_pos _ ?_ ?_) hlen
      · intro x hx
        rw [List.mem_map] at hx
        obtain ⟨y, hy, rfl⟩ := hx
        exact (hall y hy).2
      · simp [hne]

/-- C4 (amended): `rate_mbps >= 0` holds on every measurement path given
nonnegative tool-reported inputs, and `duration_sec > 0` whenever
`bytes_transferred > 0` holds for the iperf3 path (given positive
reported times) and for every phase of the full benchmark (given
nonnegative measured times) — but not for the ssh fallback, which always
leaves `duration_sec = 0`. -/
theorem throughput_nonneg_invariant :
    (∀ (size : ℤ) (env : SshEnv) (t : ThroughputStats), 0 ≤ size →
      (∀ v m, env.parsed = some (v, m) → 0 ≤ v ∧ 0 ≤ m) →
      measure_throughput_ssh size env = some t →
      0 ≤ t.rate_mbps ∧ t.duration_sec = 0) ∧
    (∀ (dur : ℚ) (env : IperfEnv) (t : ThroughputStats), 0 < dur →
      (∀ s, env.outcome = some (some s) →
        0 ≤ s.bits_per_second.getD 0 ∧ 0 < s.seconds.getD dur) →
      measure_throughput_iperf dur env = some t →
      0 ≤ t.rate_mbps ∧ (0 < t.bytes_transferred → 0 < t.duration_sec)) ∧
    (∀ (nf fs : ℤ) (env : FullEnv) (res : FullResults) (tr : List Ev), 0 ≤ nf → 0 ≤ fs →
      (∀ d, env.cold = some d → 0 ≤ d) → (∀ i d, env.hot i = some d → 0 ≤ d) →
      (∀ d, env.write = some d → 0 ≤ d) →
      measure_throughput_full nf fs env = .ok (res, tr) →
      ∀ t, res.cold_cache = some t ∨ t ∈ res.hot_cache_runs ∨
          res.hot_cache_avg = some t ∨ res.true_write = some t →
        0 ≤ t.rate_mbps ∧ (0 < t.bytes_transferred → 0 < t.duration_sec)) := by
  refine ⟨?_, ?_, ?_⟩
  · intro size env t hsize hparse h
    rw [measure_throughput_ssh] at h
    split at h
    · cases h
    · split at h
      · cases h
      · cases h
        refine ⟨?_, rfl⟩
        have hb : (0 : ℤ) ≤ (match env.parsed with
            | some (v, m) => pyInt (v * (m : ℚ))
            | none => size * 1024 * 1024) := by
          cases hp : env.parsed with
          | none =>
            exact mul_nonneg (mul_nonneg hsize (by norm_num)) (by norm_num)
          | some vm =>
            obtain ⟨v, m⟩ := vm
            obtain ⟨hv, hm⟩ := hparse v m hp
            exact pyInt_nonneg _ (mul_nonneg hv (by exact_mod_cast hm))
        have : (0 : ℚ) ≤ (((match env.parsed with
            | some (v, m) => pyInt (v * (m : ℚ))
            | none => size * 1024 * 1024) * 8 : ℤ) : ℚ) := by
          exact_mod_cast mul_nonneg hb (by norm_num)
        exact div_nonneg (div_nonneg this (by norm_num)) (by norm_num)
  · intro dur env t hdur hwf h
    rw [measure_throughput_iperf] at h
    cases ho : env.outcome with
    | none => rw [ho] at h; cases h
    | some js =>
      rw [ho] at h
      cases js with
      | none =>
        simp only [Option.some.injEq] at h
        cases h
        exact ⟨le_refl 0, fun hb => absurd hb (by norm_num)⟩
      | some sent =>
        simp only [Option.some.injEq] at h
        cases h
        obtain ⟨hbps, hsec⟩ := hwf sent (by rw [ho])
        exact ⟨div_nonneg hbps (by norm_num), fun _ => hsec⟩
  · intro nf fs env res tr hnf hfs hcold hhot hwrite h
    unfold measure_throughput_full at h
    split at h
    · cases h
      intro t hmem
      rcases hmem with h1 | h2 | h3 | h4 <;> simp_all
    · split at h
      · cases h
      · cases h
        intro t hmem
        have htot : (0 : ℤ) ≤ nf * fs * 1024 * 1024 :=
          mul_nonneg (mul_nonneg (mul_nonneg hnf hfs) (by norm_num)) (by norm_num)
        have hrunsall : ∀ x ∈ hotRuns (nf * fs * 1024 * 1024) env,
            0 ≤ x.rate_mbps ∧ 0 < x.duration_sec := by
          intro x hx
          rw [hotRuns, List.mem_filterMap] at hx
          obtain ⟨i, _, hphase⟩ := hx
          exact phaseResult_pos _ _ x htot (fun d hd => hhot i d hd) hphase
        rcases hmem with h1 | h2 | h3 | h4
        · dsimp only at h1
          obtain ⟨hr, hd⟩ := phaseResult_pos _ _ t htot hcold h1
          exact ⟨hr, fun _ => hd⟩
        · dsimp only at h2
          obtain ⟨hr, hd⟩ := hrunsall t h2
          exact ⟨hr, fun _ => hd⟩
        · dsimp only at h3
          obtain ⟨hr, hd⟩ := averageRuns_pos _ t hrunsall h3
          exact ⟨hr, fun _ => hd⟩
        · dsimp only at h4
          obtain ⟨hr, hd⟩ := phaseResult_pos _ _ t htot hwrite h4
          exact ⟨hr, fun _ => hd⟩

/-- The C4 counterexample environment: the ssh fallback with `pv`
present, transfer succeeding and no byte count parsed from the output. -/
def cexC4SshEnv : SshEnv := { pv_ok := true, xfer_ok := true }

/-- Counterexample to C4 as stated: the ssh fallback produces a
`ThroughputStats` with `bytes_transferred = 52428800 > 0` but
`duration_sec = 0`, because the code never assigns `duration_sec`. -/
theorem ssh_zero_duration_counterexample :
    (measure_throughput_ssh 50 cexC4SshEnv).map
      (fun t => (t.bytes_transferred, t.duration_sec)) = some (52428800, 0) ∧
    (0 : ℤ) < 52428800 :=
  ⟨rfl, by decide⟩

/-- A full-benchmark environment for the C4 witness: three one-second
hot runs over zero-size test files. -/
def cexC4FullEnv : FullEnv := { pv_ok := true, gen_ok := true, hot := fun _ => some 1 }

/-- The benchmark result of `cexC4FullEnv`. -/
def cexC4Res : FullResults :=
  { cold_cache := none,
    hot_cache_runs := [⟨0, 0, 1, 0⟩, ⟨0, 0, 1, 0⟩, ⟨0, 0, 1, 0⟩],
    hot_cache_avg := some ⟨0, 0, 1, 0⟩,
    true_write := none, tcp_retrans_total := 0, error := none }

/-- The event trace of `cexC4FullEnv`. -/
def cexC4Tr : List Ev :=
  [Ev.tcpRead, Ev.flush, Ev.flush, Ev.xferCold, Ev.lock,
   Ev.xferHot, Ev.sleep, Ev.xferHot, Ev.sleep, Ev.xferHot,
   Ev.flush, Ev.flush, Ev.lock, Ev.xferWrite, Ev.tcpRead]

/-- Witness for C4 (amended) on all three measurement paths at concrete
environments. -/
theorem throughput_nonneg_invariant_witness :
    (0 ≤ (⟨0, 0, 0, 0⟩ : ThroughputStats).rate_mbps ∧
      (⟨0, 0, 0, 0⟩ : ThroughputStats).duration_sec = 0) ∧
    (0 ≤ (⟨0, 0, 0, 0⟩ : ThroughputStats).rate_mbps ∧
      (0 < (⟨0, 0, 0, 0⟩ : ThroughputStats).bytes_transferred →
        0 < (⟨0, 0, 0, 0⟩ : ThroughputStats).duration_sec)) ∧
    (0 ≤ (⟨0, 0, 1, 0⟩ : ThroughputStats).rate_mbps ∧
      (0 < (⟨0, 0, 1, 0⟩ : ThroughputStats).bytes_transferred →
        0 < (⟨0, 0, 1, 0⟩ : ThroughputStats).duration_sec)) :=
  ⟨throughput_nonneg_invariant.1 0 { pv_ok := true, xfer_ok := true } ⟨0, 0, 0, 0⟩ le_rfl
      (fun v m h => nomatch h)
      (by norm_num [measure_throughput_ssh]),
   throughput_nonneg_invariant.2.1 1 { outcome := some none } ⟨0, 0, 0, 0⟩ (by norm_num)
      (fun s h => by simp at h)
      (by decide),
   throughput_nonneg_invariant.2.2 0 0 cexC4FullEnv cexC4Res cexC4Tr le_rfl le_rfl
      (fun d hd => by simp [cexC4FullEnv] at hd)
      (fun i d hd => by
        simp [cexC4FullEnv] at hd
        rw [← hd]
        norm_num)
      (fun d hd => by simp [cexC4FullEnv] at hd)
      (by norm_num [measure_throughput_full, hotRuns, hotTrace, phaseResult, averageRuns,
        pyInt, List.finRange, List.filterMap, List.foldr, List.cons_ne_nil, cexC4FullEnv,
        cexC4Res, cexC4Tr])
      ⟨0, 0, 1, 0⟩ (Or.inr (Or.inl (by decide)))⟩

/-- Cause names the packet-loss tier can emit. -/
theorem lossCauses_names (st : NetState) (c : Cause) (h : c ∈ lossCauses st) :
    c.cause = "High Packet Loss" ∨ c.cause = "Elevated Packet Loss" := by
  unfold lossCauses at h
  split_ifs at h <;> simp_all

/-- Cause names the latency tier can emit. -/
theorem latencyCauses_names (st : NetState) (c : Cause) (h : c ∈ latencyCauses st) :
    c.cause = "High Latency" ∨ c.cause = "Elevated Latency" := by
  unfold latencyCauses at h
  split_ifs at h <;> simp_all

/-- Cause name the jitter tier can emit. -/
theorem jitterCauses_names (st : NetState) (c : Cause) (h : c ∈ jitterCauses st) :
    c.cause = "High Jitter" := by
  unfold jitterCauses at h
  split_ifs at h <;> simp_all

/-- Cause names the retransmit tier can emit. -/
theorem retransCauses_names (st : NetState) (c : Cause) (h : c ∈ retransCauses st) :
    c.cause = "Excessive TCP Retransmits" ∨ c.cause = "Elevated TCP Retransmits" := by
  unfold retransCauses at h
  split_ifs at h <;> simp_all

/-- Cause name the throughput tier can emit. -/
theorem throughputCauses_names (st : NetState) (c : Cause) (h : c ∈ throughputCauses st) :
    c.cause = "Low Throughput" := by
  unfold throughputCauses at h
  split_ifs at h <;> simp_all

/-- Cause names the trend tiers can emit. -/
theorem trendCauses_names (trends : Trends) (c : Cause) (h : c ∈ trendCauses trends) :
    c.cause = "Declining Throughput Trend" ∨ c.cause = "Increasing Latency Trend" := by
  unfold trendCauses at h
  rw [List.mem_append] at h
  rcases h with h | h <;> split_ifs at h <;> simp_all

/-- A cause other than the no-trigger fallback is in the analysis output
iff some threshold check emitted it. -/
theorem mem_analyze_of_ne (c : Cause) (st : NetState) (hist : List HistRec)
    (trends : Trends) (patterns : Option TimePatterns)
    (hc : c.cause ≠ "No obvious issues detected") :
    c ∈ analyze_potential_causes (some st) hist trends patterns ↔
      c ∈ allCauses st trends patterns := by
  have heq : analyze_potential_causes (some st) hist trends patterns =
      if allCauses st trends patterns = [] then [⟨"No obvious issues detected", "low"⟩]
      else allCauses st trends patterns := rfl
  rw [heq]
  split
  next hempty =>
    constructor
    · intro h
      rcases List.mem_singleton.mp h with rfl
      exact absurd rfl hc
    · intro h
      rw [hempty] at h
      cases h
  next => exact Iff.rfl

/-- The congestion tier with positive averages: high fires iff the
ratio is strictly below 0.7, the mild tier iff it lies in [0.7, 0.85). -/
theorem mem_congestion_iff (tp : TimePatterns)
    (hb : 0 < tp.business_hours_avg) (ho : 0 < tp.off_hours_avg) :
    (Cause.mk "Business Hours Congestion" "high" ∈ congestionCauses (some tp) ↔
      tp.business_hours_avg / tp.off_hours_avg < 7 / 10) ∧
    (Cause.mk "Mild Business Hours Impact" "medium" ∈ congestionCauses (some tp) ↔
      7 / 10 ≤ tp.business_hours_avg / tp.off_hours_avg ∧
        tp.business_hours_avg / tp.off_hours_avg < 85 / 100) := by
  have heq : congestionCauses (some tp) =
      if tp.business_hours_avg ≠ 0 ∧ tp.off_hours_avg ≠ 0 ∧ tp.off_hours_avg > 0 then
        if tp.business_hours_avg / tp.off_hours_avg < 7 / 10 then
          [⟨"Business Hours Congestion", "high"⟩]
        else if tp.business_hours_avg / tp.off_hours_avg < 85 / 100 then
          [⟨"Mild Business Hours Impact", "medium"⟩]
        else []
      else [] := rfl
  rw [heq, if_pos ⟨ne_of_gt hb, ne_of_gt ho, ho⟩]
  constructor
  · split_ifs with h1 h2 <;> simp_all
  · split_ifs with h1 h2 <;> simp_all

/-- The C6 example history: all weekday samples in business hours at
rate 100, all weekend samples at rate 200. -/
def exC6History : List HistRec :=
  [⟨some ⟨0, 10⟩, 100⟩, ⟨some ⟨1, 11⟩, 100⟩, ⟨some ⟨5, 10⟩, 200⟩, ⟨some ⟨6, 23⟩, 200⟩]

/-- The time patterns of `exC6History`. -/
def exC6Patterns : TimePatterns :=
  { weekday_avg := 100, weekend_avg := 200, business_hours_avg := 100,
    off_hours_avg := 200, weekday_count := 2, weekend_count := 2 }

/-- C6 (amended): with positive business-hours and off-hours averages,
`Business Hours Congestion` is emitted at high confidence iff the
business-hours average is strictly more than 30% below the off-hours
average (`biz/off < 0.7`), and the medium `Mild Business Hours Impact`
iff the drop is strictly more than 15% but at most 30%; for the
synthetic weekday-100/weekend-200 history, `business_hours_avg = 100`,
`off_hours_avg = 200`, and the high-confidence cause fires. -/
theorem business_hours_congestion_tiers :
    (∀ (st : NetState) (hist : List HistRec) (trends : Trends) (tp : TimePatterns),
      0 < tp.business_hours_avg → 0 < tp.off_hours_avg →
      ((Cause.mk "Business Hours Congestion" "high" ∈
          analyze_potential_causes (some st) hist trends (some tp) ↔
        tp.business_hours_avg / tp.off_hours_avg < 7 / 10) ∧
       (Cause.mk "Mild Business Hours Impact" "medium" ∈
          analyze_potential_causes (some st) hist trends (some tp) ↔
        7 / 10 ≤ tp.business_hours_avg / tp.off_hours_avg ∧
          tp.business_hours_avg / tp.off_hours_avg < 85 / 100))) ∧
    (analyze_time_patterns exC6History = some exC6Patterns ∧
     exC6Patterns.business_hours_avg = 100 ∧ exC6Patterns.off_hours_avg = 200 ∧
     Cause.mk "Business Hours Congestion" "high" ∈
       analyze_potential_causes (some {}) [] ({} : Trends) (some exC6Patterns)) := by
  constructor
  · intro st hist trends tp hb ho
    have hsplit : ∀ c : Cause,
        c.cause = "Business Hours Congestion" ∨ c.cause = "Mild Business Hours Impact" →
        (c ∈ allCauses st trends (some tp) ↔ c ∈ congestionCauses (some tp)) := by
      intro c hname
      unfold allCauses
      simp only [List.mem_append]
      constructor
      · rintro ((((((h | h) | h) | h) | h) | h) | h)
        · rcases hname with hn | hn <;> rcases lossCauses_names st c h with h2 | h2 <;>
            rw [hn] at h2 <;> exact absurd h2 (by decide)
        · rcases hname with hn | hn <;> rcases latencyCauses_names st c h with h2 | h2 <;>
            rw [hn] at h2 <;> exact absurd h2 (by decide)
        · rcases hname with hn | hn <;> have h2 := jitterCauses_names st c h <;>
            rw [hn] at h2 <;> exact absurd h2 (by decide)
        · rcases hname with hn | hn <;> rcases retransCauses_names st c h with h2 | h2 <;>
            rw [hn] at h2 <;> exact absurd h2 (by decide)
        · rcases hname with hn | hn <;> have h2 := throughputCauses_names st c h <;>
            rw [hn] at h2 <;> exact absurd h2 (by decide)
        · exact h
        · rcases hname with hn | hn <;> rcases trendCauses_names trends c h with h2 | h2 <;>
            rw [hn] at h2 <;> exact absurd h2 (by decide)
      · intro h
        exact Or.inl (Or.inr h)
    obtain ⟨hhigh, hmild⟩ := mem_congestion_iff tp hb ho
    constructor
    · rw [mem_analyze_of_ne _ st hist trends (some tp) (by decide),
        hsplit _ (Or.inl rfl)]
      exact hhigh
    · rw [mem_analyze_of_ne _ st hist trends (some tp) (by decide),
        hsplit _ (Or.inr rfl)]
      exact hmild
  · have hpat : analyze_time_patterns exC6History = some exC6Patterns := by
      norm_num [analyze_time_patterns, timeBuckets, pyAvg, exC6History, exC6Patterns,
        List.cons_ne_nil]
    have hcauses : analyze_potential_causes (some {}) [] ({} : Trends) (some exC6Patterns) =
        [⟨"Business Hours Congestion", "high"⟩] := by
      norm_num [analyze_potential_causes, allCauses, lossCauses, latencyCauses, jitterCauses,
        retransCauses, throughputCauses, congestionCauses, trendCauses, exC6Patterns,
        List.cons_ne_nil]
      decide
    exact ⟨hpat, rfl, rfl, by rw [hcauses]; exact List.mem_singleton.mpr rfl⟩

/-- Witness for C6 at the example patterns (a 50% drop). -/
theorem business_hours_congestion_tiers_witness :
    (Cause.mk "Business Hours Congestion" "high" ∈
        analyze_potential_causes (some {}) [] ({} : Trends) (some exC6Patterns) ↔
      exC6Patterns.business_hours_avg / exC6Patterns.off_hours_avg < 7 / 10) ∧
    (Cause.mk "Mild Business Hours Impact" "medium" ∈
        analyze_potential_causes (some {}) [] ({} : Trends) (some exC6Patterns) ↔
      7 / 10 ≤ exC6Patterns.business_hours_avg / exC6Patterns.off_hours_avg ∧
        exC6Patterns.business_hours_avg / exC6Patterns.off_hours_avg < 85 / 100) :=
  business_hours_congestion_tiers.1 {} [] {} exC6Patterns (by norm_num [exC6Patterns])
    (by norm_num [exC6Patterns])

/-- The C6 counterexample history: one weekday business-hours sample at
rate 70, one weekend sample at rate 100 — exactly a 30% drop. -/
def cexC6History : List HistRec := [⟨some ⟨1, 10⟩, 70⟩, ⟨some ⟨5, 10⟩, 100⟩]

/-- The time patterns of `cexC6History`. -/
def cexC6Patterns : TimePatterns :=
  { weekday_avg := 70, weekend_avg := 100, business_hours_avg := 70,
    off_hours_avg := 100, weekday_count := 1, weekend_count := 1 }

/-- Counterexample to C6 as stated: at exactly a 30% drop (business 70
vs off-hours 100) the claim requires the high-confidence cause, but the
code's strict `ratio < 0.7` test emits only the medium mild-impact
cause. -/
theorem congestion_boundary_counterexample :
    analyze_time_patterns cexC6History = some cexC6Patterns ∧
    analyze_potential_causes (some {}) [] ({} : Trends) (some cexC6Patterns) =
      [⟨"Mild Business Hours Impact", "medium"⟩] ∧
    Cause.mk "Business Hours Congestion" "high" ∉
      analyze_potential_causes (some {}) [] ({} : Trends) (some cexC6Patterns) := by
  have hpat : analyze_time_patterns cexC6History = some cexC6Patterns := by
    norm_num [analyze_time_patterns, timeBuckets, pyAvg, cexC6History, cexC6Patterns,
      List.cons_ne_nil]
  have hcauses : analyze_potential_causes (some {}) [] ({} : Trends) (some cexC6Patterns) =
      [⟨"Mild Business Hours Impact", "medium"⟩] := by
    norm_num [analyze_potential_causes, allCauses, lossCauses, latencyCauses, jitterCauses,
      retransCauses, throughputCauses, congestionCauses, trendCauses, cexC6Patterns,
      List.cons_ne_nil]
    decide
  exact ⟨hpat, hcauses, by rw [hcauses]; decide⟩

/-- C7: for every current record with `ping_loss_pct = 7`,
`ping_avg_ms = 120` and `tcp_retrans = 150`, the causes list contains
`High Packet Loss`, `High Latency` and `Excessive TCP Retransmits`, each
at high confidence, and the recommendation list generated from those
causes is non-empty, duplicate-free, and is the first-seen-order
deduplication of the raw recommendation sequence (a sublist with the
same members). -/
theorem triple_high_confidence_and_dedup :
    ∀ (st : NetState) (hist : List HistRec) (trends : Trends) (patterns : Option TimePatterns)
      (causes : List Cause) (recs : List String),
      st.ping_loss_pct = 7 → st.ping_avg_ms = 120 → st.tcp_retrans = 150 →
      causes = analyze_potential_causes (some st) hist trends patterns →
      recs = generate_recommendations causes (some st) patterns →
      Cause.mk "High Packet Loss" "high" ∈ causes ∧
      Cause.mk "High Latency" "high" ∈ causes ∧
      Cause.mk "Excessive TCP Retransmits" "high" ∈ causes ∧
      recs ≠ [] ∧ recs.Nodup ∧ recs.Sublist (rawRecommendations causes) ∧
      (∀ r, r ∈ recs ↔ r ∈ rawRecommendations causes) := by
  intro st hist trends patterns causes recs hl ha hr hc hrec
  have hloss : lossCauses st = [⟨"High Packet Loss", "high"⟩] := by
    unfold lossCauses
    rw [hl]
    norm_num
  have hlat : latencyCauses st = [⟨"High Latency", "high"⟩] := by
    unfold latencyCauses
    rw [ha]
    norm_num
  have hret : retransCauses st = [⟨"Excessive TCP Retransmits", "high"⟩] := by
    unfold retransCauses
    rw [hr]
    norm_num
  have hne : allCauses st trends patterns ≠ [] := by
    unfold allCauses
    rw [hloss]
    simp
  have hall : causes = allCauses st trends patterns := by
    rw [hc]
    have heq : analyze_potential_causes (some st) hist trends patterns =
        if allCauses st trends patterns = [] then [⟨"No obvious issues detected", "low"⟩]
        else allCauses st trends patterns := rfl
    rw [heq, if_neg hne]
  have hm1 : Cause.mk "High Packet Loss" "high" ∈ causes := by
    rw [hall]
    unfold allCauses
    rw [hloss]
    simp
  have hm2 : Cause.mk "High Latency" "high" ∈ causes := by
    rw [hall]
    unfold allCauses
    rw [hlat]
    simp
  have hm3 : Cause.mk "Excessive TCP Retransmits" "high" ∈ causes := by
    rw [hall]
    unfold allCauses
    rw [hret]
    simp
  have hmemraw : "Check cable connections and switch ports" ∈ rawRecommendations causes := by
    unfold rawRecommendations
    rw [List.mem_flatten]
    refine ⟨recsFor "High Packet Loss", List.mem_map.mpr ⟨_, hm1, rfl⟩, by decide⟩
  have hraw : rawRecommendations causes ≠ [] := List.ne_nil_of_mem hmemraw
  have hrecs : recs = dedupFirst (rawRecommendations causes) := by
    rw [hrec]
    unfold generate_recommendations
    dsimp only
    rw [if_neg hraw]
  refine ⟨hm1, hm2, hm3, ?_, ?_, ?_, ?_⟩
  · rw [hrecs]
    exact dedupFirst_ne_nil _ hraw
  · rw [hrecs]
    exact nodup_dedupFirst _
  · rw [hrecs]
    exact dedupFirst_sublist _
  · intro r
    rw [hrecs]
    exact mem_dedupFirst _ r

/-- The C7 state: 7% loss, 120 ms latency, 150 retransmits. -/
def exC7State : NetState := { ping_loss_pct := 7, ping_avg_ms := 120, tcp_retrans := 150 }

/-- Witness for C7 at the concrete state. -/
theorem triple_high_confidence_and_dedup_witness :
    Cause.mk "High Packet Loss" "high" ∈
      analyze_potential_causes (some exC7State) [] ({} : Trends) none ∧
    Cause.mk "High Latency" "high" ∈
      analyze_potential_causes (some exC7State) [] ({} : Trends) none ∧
    Cause.mk "Excessive TCP Retransmits" "high" ∈
      analyze_potential_causes (some exC7State) [] ({} : Trends) none ∧
    generate_recommendations (analyze_potential_causes (some exC7State) [] ({} : Trends) none)
      (some exC7State) none ≠ [] ∧
    (generate_recommendations (analyze_potential_causes (some exC7State) [] ({} : Trends) none)
      (some exC7State) none).Nodup ∧
    (generate_recommendations (analyze_potential_causes (some exC7State) [] ({} : Trends) none)
      (some exC7State) none).Sublist
      (rawRecommendations (analyze_potential_causes (some exC7State) [] ({} : Trends) none)) ∧
    (∀ r, r ∈ generate_recommendations
        (analyze_potential_causes (some exC7State) [] ({} : Trends) none)
        (some exC7State) none ↔
      r ∈ rawRecommendations
        (analyze_potential_causes (some exC7State) [] ({} : Trends) none)) :=
  triple_high_confidence_and_dedup exC7State [] {} none _ _ rfl rfl rfl rfl rfl
